import Mathlib

/-!
Verification of the footStepMeter_ReactNative core against its specification.

The TypeScript sources are shallowly embedded:
- JavaScript numbers are modelled by `JSNum`: a rational value or one of the
  non-finite values `NaN`, `Infinity`, `-Infinity`.  JavaScript comparison
  operators (which return `false` whenever `NaN` is involved) are modelled by
  the boolean functions `ltJS` / `leJS`.
- `Date` values are modelled by their epoch value (`Int`), nullable fields by
  `Option`, thrown errors by `Except`.
- Zustand store actions become pure functions on explicit state records;
  `new Date()` inside an action becomes an injected `now` argument.
-/

namespace FootStepMeter

/-- Model of a JavaScript number: a finite rational or NaN / ±Infinity. -/
inductive JSNum where
  | num (q : ℚ)
  | nan
  | inf
  | negInf
deriving DecidableEq, Repr

/-- JavaScript `isNaN`. -/
def isNaNJS : JSNum → Bool
  | .nan => true
  | _ => false

/-- JavaScript `isFinite`: false for NaN and for both infinities. -/
def isFiniteJS : JSNum → Bool
  | .num _ => true
  | _ => false

/-- JavaScript `<` on numbers: any comparison involving NaN is false. -/
def ltJS : JSNum → JSNum → Bool
  | .nan, _ => false
  | _, .nan => false
  | .num a, .num b => decide (a < b)
  | .num _, .inf => true
  | .num _, .negInf => false
  | .inf, _ => false
  | .negInf, .negInf => false
  | .negInf, _ => true

/-- JavaScript `<=` on numbers: any comparison involving NaN is false. -/
def leJS : JSNum → JSNum → Bool
  | .nan, _ => false
  | _, .nan => false
  | .num a, .num b => decide (a ≤ b)
  | .num _, .inf => true
  | .num _, .negInf => false
  | .inf, .inf => true
  | .inf, _ => false
  | .negInf, _ => true

/-- JavaScript `Math.abs`. -/
def absJS : JSNum → JSNum
  | .num q => .num |q|
  | .nan => .nan
  | .inf => .inf
  | .negInf => .inf

/-- The rational value of a finite `JSNum` (0 for the non-finite values;
only used below guards that established finiteness). -/
def JSNum.toQ : JSNum → ℚ
  | .num q => q
  | _ => 0

/-- JavaScript `Math.round`: round to nearest integer, halves toward +∞. -/
def jsRound (q : ℚ) : ℤ := ⌊q + 1 / 2⌋

/-! ### src/utils/coordinates.ts -/

/-- Maximum absolute latitude value: 90 degrees. -/
def MAX_LATITUDE : JSNum := .num 90

/-- Maximum absolute longitude value: 180 degrees. -/
def MAX_LONGITUDE : JSNum := .num 180

/-- `isValidLatitude`: `Math.abs(latitude) <= MAX_LATITUDE`. -/
def isValidLatitude (latitude : JSNum) : Bool :=
  leJS (absJS latitude) MAX_LATITUDE

/-- `isValidLongitude`: `Math.abs(longitude) <= MAX_LONGITUDE`. -/
def isValidLongitude (longitude : JSNum) : Bool :=
  leJS (absJS longitude) MAX_LONGITUDE

/-- `isValidCoordinate`: both coordinates valid. -/
def isValidCoordinate (latitude longitude : JSNum) : Bool :=
  isValidLatitude latitude && isValidLongitude longitude

/-! ### src/utils/errors.ts -/

/-- `VALIDATION_ERROR_CODES` from src/utils/errors.ts. -/
inductive ValidationErrorCode where
  | invalidValue
  | negativeValue
  | zeroOrNegativeValue
  | outOfRange
  | invalidType
deriving DecidableEq, Repr

/-- The string value of each member of `VALIDATION_ERROR_CODES`. -/
def ValidationErrorCode.codeString : ValidationErrorCode → String
  | .invalidValue => "INVALID_VALUE"
  | .negativeValue => "NEGATIVE_VALUE"
  | .zeroOrNegativeValue => "ZERO_OR_NEGATIVE_VALUE"
  | .outOfRange => "OUT_OF_RANGE"
  | .invalidType => "INVALID_TYPE"

/-- `LOCATION_ERROR_CODES` from src/utils/errors.ts. -/
inductive LocationErrorCode where
  | invalidCoordinates
  | latitudeOutOfRange
  | longitudeOutOfRange
  | identicalPoints
  | negativeAccuracy
  | negativeSpeed
  | invalidHeading
  | invalidGpsAccuracy
deriving DecidableEq, Repr

/-- The string value of each member of `LOCATION_ERROR_CODES`. -/
def LocationErrorCode.codeString : LocationErrorCode → String
  | .invalidCoordinates => "LOCATION.INVALID_COORDINATES"
  | .latitudeOutOfRange => "LOCATION.LATITUDE_OUT_OF_RANGE"
  | .longitudeOutOfRange => "LOCATION.LONGITUDE_OUT_OF_RANGE"
  | .identicalPoints => "LOCATION.IDENTICAL_POINTS"
  | .negativeAccuracy => "LOCATION.NEGATIVE_ACCURACY"
  | .negativeSpeed => "LOCATION.NEGATIVE_SPEED"
  | .invalidHeading => "LOCATION.INVALID_HEADING"
  | .invalidGpsAccuracy => "LOCATION.INVALID_GPS_ACCURACY"

/-- The dynamic value a `LocationError` message interpolates (the source
builds the message string by splicing this value into a fixed template that
is determined by the error code). -/
inductive ErrValue where
  | jnum (v : JSNum)
  | jstr (s : String)
deriving DecidableEq, Repr

/-- `LocationError` (code, message, field); the interpolated message is
represented by its code-determined template plus the spliced `value`. -/
structure LocationError where
  code : LocationErrorCode
  value : ErrValue
  field : String
deriving DecidableEq, Repr

/-- `ValidationError` (code, message, field); the messages thrown by
`calculateSpeed` are constant strings, kept verbatim. -/
structure ValidationErr where
  code : ValidationErrorCode
  message : String
  field : String
deriving DecidableEq, Repr

/-! ### src/types/location.ts -/

/-- `LocationPoint`: a single GPS sample.  `timestamp` is the `Date` epoch
value; `speed` and `heading` are nullable. -/
structure LocationPoint where
  latitude : JSNum
  longitude : JSNum
  timestamp : Int
  accuracy : JSNum
  speed : Option JSNum
  heading : Option JSNum
deriving DecidableEq, Repr

/-- `ValidationResult` with its optional `LocationError`. -/
structure ValidationResult where
  isValid : Bool
  error : Option LocationError
deriving DecidableEq, Repr

/-- `Object.values(GPS_ACCURACY)` in source order: the closed enumeration of
GPS accuracy tier strings. -/
def GPS_ACCURACY_VALUES : List String :=
  ["best", "nearest-ten-meters", "hundred-meters", "kilometer", "three-kilometers"]

/-- `validateGPSAccuracy`: membership in `VALID_GPS_ACCURACIES` (the set
built from `Object.values(GPS_ACCURACY)`). -/
def validateGPSAccuracy (accuracy : String) : Bool :=
  GPS_ACCURACY_VALUES.contains accuracy

/-- `validateGPSAccuracyDetailed`: boolean test plus a `LocationError` with
code `INVALID_GPS_ACCURACY` on the field `accuracy` when the test fails. -/
def validateGPSAccuracyDetailed (accuracy : String) : ValidationResult :=
  if !validateGPSAccuracy accuracy then
    { isValid := false,
      error := some { code := .invalidGpsAccuracy, value := .jstr accuracy, field := "accuracy" } }
  else
    { isValid := true, error := none }

/-- `validateLocationPointDetailed`: field-by-field validation, returning at
the first failing check, in source order latitude, longitude, accuracy,
speed, heading. -/
def validateLocationPointDetailed (location : LocationPoint) : ValidationResult :=
  if !isValidLatitude location.latitude then
    { isValid := false,
      error := some { code := .latitudeOutOfRange, value := .jnum location.latitude,
                      field := "latitude" } }
  else if !isValidLongitude location.longitude then
    { isValid := false,
      error := some { code := .longitudeOutOfRange, value := .jnum location.longitude,
                      field := "longitude" } }
  else if ltJS location.accuracy (.num 0) then
    { isValid := false,
      error := some { code := .negativeAccuracy, value := .jnum location.accuracy,
                      field := "accuracy" } }
  else if (match location.speed with
           | some v => ltJS v (.num 0)
           | none => false) then
    { isValid := false,
      error := some { code := .negativeSpeed,
                      value := .jnum (match location.speed with
                                      | some v => v
                                      | none => .nan),
                      field := "speed" } }
  else if (match location.heading with
           | some v => ltJS v (.num 0) || ltJS (.num 360) v
           | none => false) then
    { isValid := false,
      error := some { code := .invalidHeading,
                      value := .jnum (match location.heading with
                                      | some v => v
                                      | none => .nan),
                      field := "heading" } }
  else
    { isValid := true, error := none }

/-- `validateLocationPoint`: boolean wrapper over the detailed validator. -/
def validateLocationPoint (location : LocationPoint) : Bool :=
  (validateLocationPointDetailed location).isValid

/-! ### src/utils/calculations.ts -/

/-- `calculateSpeed(distanceInMeters, timeInSeconds)`: validates its inputs
in source order (distance finite, time finite, distance non-negative, time
positive), then returns `(d / t * 3600) / 1000` rounded with
`Math.round(x * 1000000) / 1000000`. -/
def calculateSpeed (distanceInMeters timeInSeconds : JSNum) : Except ValidationErr ℚ :=
  if !isFiniteJS distanceInMeters || isNaNJS distanceInMeters then
    .error { code := .invalidValue, message := "Distance must be a valid finite number",
             field := "distanceInMeters" }
  else if !isFiniteJS timeInSeconds || isNaNJS timeInSeconds then
    .error { code := .invalidValue, message := "Time must be a valid finite number",
             field := "timeInSeconds" }
  else if ltJS distanceInMeters (.num 0) then
    .error { code := .negativeValue, message := "Distance must be non-negative",
             field := "distanceInMeters" }
  else if leJS timeInSeconds (.num 0) then
    .error { code := .zeroOrNegativeValue, message := "Time must be greater than 0",
             field := "timeInSeconds" }
  else
    let metersPerSecond := distanceInMeters.toQ / timeInSeconds.toQ
    let kmPerHour := metersPerSecond * 3600 / 1000
    .ok ((jsRound (kmPerHour * 1000000) : ℚ) / 1000000)

/-- The error code of a `calculateSpeed` outcome, `none` on success. -/
def speedErrCode : Except ValidationErr ℚ → Option ValidationErrorCode
  | .error e => some e.code
  | .ok _ => none

/-- Rounding to 6 decimal digits, as the spec words it (used to compare the
source computation against the specified `distance/seconds*3.6`). -/
def round6 (q : ℚ) : ℚ := (jsRound (q * 1000000) : ℚ) / 1000000

/-! ### src/stores/footprintStore.ts -/

/-- `FootprintState`: the collection-session state of the zustand store. -/
structure FootprintState where
  isCollecting : Bool
  startTime : Option Int
  locationPoints : List LocationPoint
  currentLocation : Option LocationPoint
  currentSpeed : Option JSNum
deriving DecidableEq, Repr

/-- `initialState` of the footprint store. -/
def initialFootprintState : FootprintState :=
  { isCollecting := false, startTime := none, locationPoints := [],
    currentLocation := none, currentSpeed := none }

/-- `startCollecting`: spreads the previous state and sets
`isCollecting := true`, `startTime := new Date()` (the injected `now`). -/
def startCollecting (now : Int) (state : FootprintState) : FootprintState :=
  { state with isCollecting := true, startTime := some now }

/-- `stopCollecting`: replaces the state by `initialState`. -/
def stopCollecting (_state : FootprintState) : FootprintState :=
  initialFootprintState

/-- `reset`: replaces the state by `initialState`. -/
def resetFootprints (_state : FootprintState) : FootprintState :=
  initialFootprintState

/-- `addLocationPoint`: no-op unless collecting; otherwise appends the point
and mirrors it in `currentLocation` / `currentSpeed`. -/
def addLocationPoint (location : LocationPoint) (state : FootprintState) : FootprintState :=
  if !state.isCollecting then
    state
  else
    { state with
      locationPoints := state.locationPoints ++ [location],
      currentLocation := some location,
      currentSpeed := location.speed }

/-! ### src/types/route.ts -/

/-- `Route`: a saved route aggregate. -/
structure Route where
  id : String
  name : String
  locationPoints : List LocationPoint
  startTime : Int
  endTime : Int
  pointCount : Nat
deriving DecidableEq, Repr

/-! ### src/stores/routeStore.ts

The JavaScript `Map<string, Route>` is modelled by an insertion-ordered
association list; `Map.set` replaces in place or appends, `Map.delete`
removes the entry with the given key. -/

/-- `Map.set`: replace the value at an existing key in place, else append. -/
def mapSet : List (String × Route) → String → Route → List (String × Route)
  | [], k, v => [(k, v)]
  | kv :: rest, k, v =>
    if kv.1 = k then (k, v) :: rest else kv :: mapSet rest k v

/-- `Map.delete`: remove the entry with the given key. -/
def mapDelete (k : String) (m : List (String × Route)) : List (String × Route) :=
  m.filter (fun kv => kv.1 ≠ k)

/-- `Map.get`: the value at a key, if present. -/
def mapGet (m : List (String × Route)) (k : String) : Option Route :=
  (m.find? (fun kv => kv.1 == k)).map (fun kv => kv.2)

/-- `RouteState`: the ordered route sequence plus the id-keyed map. -/
structure RouteState where
  routes : List Route
  routeMap : List (String × Route)
deriving DecidableEq, Repr

/-- `initialState` of the route store. -/
def initialRouteState : RouteState := { routes := [], routeMap := [] }

/-- `sortRoutesByTime`: `Array.sort` with comparator
`(a, b) => b.startTime - a.startTime`, i.e. by start time, newest first. -/
def sortRoutesByTime (routes : List Route) : List Route :=
  List.insertionSort (fun a b => b.startTime ≤ a.startTime) routes

/-- `addRoute`: append the route, re-sort the sequence, and `Map.set` the
map entry at the route's id. -/
def addRoute (route : Route) (state : RouteState) : RouteState :=
  { routes := sortRoutesByTime (state.routes ++ [route]),
    routeMap := mapSet state.routeMap route.id route }

/-- `getRoutesByTitle`: filter the sequence by name. -/
def getRoutesByTitle (title : String) (state : RouteState) : List Route :=
  state.routes.filter (fun route => route.name == title)

/-- `getRouteCount`: length of the sequence. -/
def getRouteCount (state : RouteState) : Nat :=
  state.routes.length

/-- `deleteRouteByTitle`: returns `false` leaving the state unchanged when no
route carries the title; otherwise drops the matching routes from the
sequence and `Map.delete`s each of their ids. -/
def deleteRouteByTitle (title : String) (state : RouteState) : Bool × RouteState :=
  let routesToDelete := state.routes.filter (fun route => route.name == title)
  if routesToDelete.length = 0 then
    (false, state)
  else
    (true,
      { routes := state.routes.filter (fun route => route.name != title),
        routeMap := routesToDelete.foldl (fun m route => mapDelete route.id m) state.routeMap })

/-- The consistency invariant the specification states for the route
catalog: every route of the sequence has its entry in the mapping, every
mapping entry is a route of the sequence keyed by its id, and ids and keys
are free of duplicates (so the correspondence is one-to-one). -/
def routeStoreConsistent (state : RouteState) : Prop :=
  (∀ r ∈ state.routes, (r.id, r) ∈ state.routeMap) ∧
  (∀ kv ∈ state.routeMap, kv.2 ∈ state.routes ∧ kv.1 = kv.2.id) ∧
  (state.routes.map Route.id).Nodup ∧
  (state.routeMap.map Prod.fst).Nodup

instance (state : RouteState) : Decidable (routeStoreConsistent state) := by
  unfold routeStoreConsistent
  infer_instance

/-! ### src/services/storageService.ts -/

/-- A row of the `footprints` table (`direction` stores the heading;
`timestamp` is the epoch value of the stored ISO-8601 string). -/
structure FootprintRow where
  id : Int
  title : String
  latitude : JSNum
  longitude : JSNum
  accuracy : JSNum
  speed : Option JSNum
  direction : Option JSNum
  timestamp : Int
deriving DecidableEq, Repr

/-- `transformFootprintToLocationPoint`: database row to `LocationPoint`
(`direction` maps back to `heading`). -/
def transformFootprintToLocationPoint (footprint : FootprintRow) : LocationPoint :=
  { latitude := footprint.latitude, longitude := footprint.longitude,
    timestamp := footprint.timestamp, accuracy := footprint.accuracy,
    speed := footprint.speed, heading := footprint.direction }

/-- Character-level model of `title.replace(/\s+/g, '-').toLowerCase()`:
each whitespace run becomes a single dash and letters are lowercased. -/
def dashLowerChars : List Char → List Char
  | [] => []
  | c :: rest =>
    if c.isWhitespace then
      '-' :: dashLowerChars (rest.dropWhile Char.isWhitespace)
    else
      c.toLower :: dashLowerChars rest
termination_by l => l.length
decreasing_by
  · exact Nat.lt_succ_of_le (List.Sublist.length_le (List.dropWhile_sublist _))
  · exact Nat.lt_succ_of_le (Nat.le_refl _)

/-- `generateRouteId`: dashed lowercased title, a dash, the first row id. -/
def generateRouteId (title : String) (firstFootprintId : Int) : String :=
  String.mk (dashLowerChars title.data) ++ "-" ++ toString firstFootprintId

/-- One step of the grouping pass: a row's title becomes a new key of the
grouping object unless already present. -/
def addTitle (acc : List String) (r : FootprintRow) : List String :=
  if acc.contains r.title then acc else acc ++ [r.title]

/-- The distinct titles of the rows, in first-occurrence order (the
iteration order of the keys of the grouping object). -/
def distinctTitles (footprints : List FootprintRow) : List String :=
  footprints.foldl addTitle []

/-- `Math.min(...)` over a list with a head element. -/
def listMinD : List Int → Int
  | [] => 0
  | x :: xs => xs.foldl min x

/-- `Math.max(...)` over a list with a head element. -/
def listMaxD : List Int → Int
  | [] => 0
  | x :: xs => xs.foldl max x

/-- The `Route` built for one title group: location points are the
transformed rows of the group, `startTime`/`endTime` the minimum/maximum
timestamp, `pointCount` the group size. -/
def mkRouteForTitle (footprints : List FootprintRow) (title : String) : Route :=
  let group := footprints.filter (fun r => r.title == title)
  let locationPoints := group.map transformFootprintToLocationPoint
  let timestamps := locationPoints.map (fun p => p.timestamp)
  { id := generateRouteId title (match group with | [] => 0 | g :: _ => g.id),
    name := title,
    locationPoints := locationPoints,
    startTime := listMinD timestamps,
    endTime := listMaxD timestamps,
    pointCount := locationPoints.length }

/-- `groupFootprintsByTitle`: one `Route` per distinct title. -/
def groupFootprintsByTitle (footprints : List FootprintRow) : List Route :=
  (distinctTitles footprints).map (mkRouteForTitle footprints)

/-- `fetchFootprints` applied to the rows returned by the
`SELECT * FROM footprints ORDER BY title, timestamp ASC` query: the empty
row set yields `[]`, otherwise the rows are grouped by title. -/
def fetchFootprints (footprints : List FootprintRow) : List Route :=
  if footprints.length = 0 then [] else groupFootprintsByTitle footprints

/-! ### src/services/exportService.ts

`Number.prototype.toString` and `Date.prototype.toISOString` are runtime
builtins; the CSV builder is therefore parametrized by the two rendering
functions `numStr` and `dateStr`. -/

/-- Rendering of a nullable number: `x?.toString() || ''`. -/
def optNumStr (numStr : JSNum → String) : Option JSNum → String
  | none => ""
  | some v => numStr v

/-- `escapeCsvValue`: wrap in quotes, doubling inner quotes, when the value
contains a comma, a quote or a newline. -/
def escapeCsvValue (value : String) : String :=
  if value.data.any (fun c => c = ',' || c = '"' || c = '\n') then
    "\"" ++ value.replace "\"" "\"\"" ++ "\""
  else
    value

/-- `formatCsvRow`: the seven columns joined with commas; nullable columns
render as the empty string when null. -/
def formatCsvRow (numStr : JSNum → String) (dateStr : Int → String)
    (routeName : String) (latitude longitude : JSNum) (timestamp : Int)
    (accuracy speed heading : Option JSNum) : String :=
  String.intercalate ","
    [routeName, numStr latitude, numStr longitude, dateStr timestamp,
     optNumStr numStr accuracy, optNumStr numStr speed, optNumStr numStr heading]

/-- The data rows of `makeCSVData`: one formatted row per location point of
each route, in order. -/
def csvDataRows (numStr : JSNum → String) (dateStr : Int → String)
    (routes : List Route) : List String :=
  (routes.map (fun route =>
    route.locationPoints.map (fun point =>
      formatCsvRow numStr dateStr (escapeCsvValue route.name)
        point.latitude point.longitude point.timestamp
        (some point.accuracy) point.speed point.heading))).flatten

/-- `makeCSVData`: the header constant (which ends in a newline) for zero
routes; otherwise the header cell followed by the data rows, joined with
newlines, plus a trailing newline. -/
def makeCSVData (numStr : JSNum → String) (dateStr : Int → String)
    (routes : List Route) : String :=
  let headers := "Route,Latitude,Longitude,Timestamp,Accuracy,Speed,Heading\n"
  if routes.length = 0 then
    headers
  else
    String.intercalate "\n" (headers :: csvDataRows numStr dateStr routes) ++ "\n"

/-! ### Small computation lemmas about the JavaScript number model -/

/-- Comparison with NaN on the left is false. -/
theorem ltJS_nan_left (y : JSNum) : ltJS .nan y = false := by
  cases y <;> rfl

/-- Comparison with NaN on the right is false. -/
theorem ltJS_nan_right (x : JSNum) : ltJS x .nan = false := by
  cases x <;> rfl

/-- NaN latitude fails the range check. -/
theorem isValidLatitude_nan : isValidLatitude .nan = false := rfl

/-- NaN longitude fails the range check. -/
theorem isValidLongitude_nan : isValidLongitude .nan = false := rfl

/-! ### Concrete fixtures used by witnesses and counterexamples -/

/-- A well-formed GPS sample (Tokyo-like coordinates). -/
def samplePoint : LocationPoint :=
  { latitude := .num 35, longitude := .num 139, timestamp := 0,
    accuracy := .num 5, speed := some (.num 2), heading := some (.num 45) }

/-- A collecting session that already accumulated one sample. -/
def collectingOneSample : FootprintState :=
  { isCollecting := true, startTime := some 0, locationPoints := [samplePoint],
    currentLocation := some samplePoint, currentSpeed := some (.num 2) }

/-! ### Claim theorems -/

/-- C1 counterexample: in a collecting state with a non-empty sample list,
`startCollecting` does not clear the samples, so the claimed post-state
(empty sample list) is false at this explicit input. -/
theorem startCollecting_clears_counterexample :
    (collectingOneSample.isCollecting = true ∧
      collectingOneSample.locationPoints ≠ []) ∧
    ¬ (startCollecting 5 collectingOneSample).locationPoints = [] := by
  constructor
  · exact ⟨rfl, by decide⟩
  · decide

/-- C1 amended: for every collecting state with a non-empty sample list,
`startCollecting` re-stamps `startTime` with the injected now and keeps
`isCollecting`, but leaves the accumulated samples unchanged (it does not
clear them). -/
theorem startCollecting_keeps_samples (now : Int) (s : FootprintState)
    (_h1 : s.isCollecting = true) (_h2 : s.locationPoints ≠ []) :
    (startCollecting now s).locationPoints = s.locationPoints ∧
    (startCollecting now s).startTime = some now ∧
    (startCollecting now s).isCollecting = true :=
  ⟨rfl, rfl, rfl⟩

/-- Witness for C1: the amended theorem applied at a concrete collecting
state holding one sample. -/
theorem startCollecting_keeps_samples_witness :
    (startCollecting 5 collectingOneSample).locationPoints =
        collectingOneSample.locationPoints ∧
    (startCollecting 5 collectingOneSample).startTime = some 5 ∧
    (startCollecting 5 collectingOneSample).isCollecting = true :=
  startCollecting_keeps_samples 5 collectingOneSample rfl (by decide)

/-- C5: `addLocationPoint` is a silent no-op when not collecting, and when
collecting appends the sample at the end of the list and mirrors it into
`currentLocation` and `currentSpeed` (the speed field verbatim). -/
theorem addLocationPoint_spec (location : LocationPoint) (s : FootprintState) :
    (s.isCollecting = false → addLocationPoint location s = s) ∧
    (s.isCollecting = true →
      addLocationPoint location s =
        { s with locationPoints := s.locationPoints ++ [location],
                 currentLocation := some location,
                 currentSpeed := location.speed }) := by
  constructor <;> intro h <;> simp [addLocationPoint, h]

/-- Witness for C5: both branches of the theorem at concrete states. -/
theorem addLocationPoint_spec_witness :
    addLocationPoint samplePoint initialFootprintState = initialFootprintState ∧
    addLocationPoint samplePoint collectingOneSample =
      { collectingOneSample with
        locationPoints := collectingOneSample.locationPoints ++ [samplePoint],
        currentLocation := some samplePoint,
        currentSpeed := samplePoint.speed } :=
  ⟨(addLocationPoint_spec samplePoint initialFootprintState).1 rfl,
   (addLocationPoint_spec samplePoint collectingOneSample).2 rfl⟩

/-- C6: `stopCollecting` and `reset` have identical effect on every state,
producing the initial state with `isCollecting = false`, no start time, no
samples, no current sample and no current speed. -/
theorem stop_reset_equivalent (s : FootprintState) :
    stopCollecting s = resetFootprints s ∧
    stopCollecting s =
      { isCollecting := false, startTime := none, locationPoints := [],
        currentLocation := none, currentSpeed := none } ∧
    resetFootprints s = initialFootprintState :=
  ⟨rfl, rfl, rfl⟩

/-- C3 counterexample: the claim lists best-for-navigation among the
accepted tiers, but both validators reject it. -/
theorem validateGPSAccuracy_bfn_counterexample :
    validateGPSAccuracy "best-for-navigation" = false ∧
    (validateGPSAccuracyDetailed "best-for-navigation").isValid = false := by
  decide

/-- C3 amended: the validators accept exactly the five tier strings best,
nearest-ten-meters, hundred-meters, kilometer and three-kilometers, and
reject every other string with a `LocationError` of code
`INVALID_GPS_ACCURACY` on the field accuracy. -/
theorem validateGPSAccuracy_five_tiers (accuracy : String) :
    (validateGPSAccuracy accuracy = true ↔
      (accuracy = "best" ∨ accuracy = "nearest-ten-meters" ∨
        accuracy = "hundred-meters" ∨ accuracy = "kilometer" ∨
        accuracy = "three-kilometers")) ∧
    ((validateGPSAccuracyDetailed accuracy).isValid = validateGPSAccuracy accuracy) ∧
    (validateGPSAccuracy accuracy = false →
      (validateGPSAccuracyDetailed accuracy).error =
        some { code := .invalidGpsAccuracy, value := .jstr accuracy,
               field := "accuracy" }) := by
  refine ⟨?_, ?_, ?_⟩
  · rw [validateGPSAccuracy, List.elem_iff]
    simp [GPS_ACCURACY_VALUES]
  · by_cases h : validateGPSAccuracy accuracy <;>
      simp [validateGPSAccuracyDetailed, h]
  · intro h
    simp [validateGPSAccuracyDetailed, h]

/-- Witness for C3: the amended theorem instantiated at an accepted tier
and at a rejected string. -/
theorem validateGPSAccuracy_five_tiers_witness :
    validateGPSAccuracy "kilometer" = true ∧
    (validateGPSAccuracyDetailed "unknown").error =
      some { code := .invalidGpsAccuracy, value := .jstr "unknown",
             field := "accuracy" } :=
  ⟨(validateGPSAccuracy_five_tiers "kilometer").1.mpr
      (Or.inr (Or.inr (Or.inr (Or.inl rfl)))),
   (validateGPSAccuracy_five_tiers "unknown").2.2 (by decide)⟩

/-- C9: `validateLocationPointDetailed` checks latitude, longitude,
accuracy, speed, heading in that fixed order and returns at the first
failing check an error whose code matches that field, whose `field` names
it, and whose message embeds the offending value; a sample passing all five
checks yields `isValid = true` with no error. -/
theorem validateLocationPointDetailed_order (p : LocationPoint) :
    (isValidLatitude p.latitude = false →
      validateLocationPointDetailed p =
        { isValid := false,
          error := some { code := .latitudeOutOfRange, value := .jnum p.latitude,
                          field := "latitude" } }) ∧
    (isValidLatitude p.latitude = true → isValidLongitude p.longitude = false →
      validateLocationPointDetailed p =
        { isValid := false,
          error := some { code := .longitudeOutOfRange, value := .jnum p.longitude,
                          field := "longitude" } }) ∧
    (isValidLatitude p.latitude = true → isValidLongitude p.longitude = true →
      ltJS p.accuracy (.num 0) = true →
      validateLocationPointDetailed p =
        { isValid := false,
          error := some { code := .negativeAccuracy, value := .jnum p.accuracy,
                          field := "accuracy" } }) ∧
    (isValidLatitude p.latitude = true → isValidLongitude p.longitude = true →
      ltJS p.accuracy (.num 0) = false →
      ∀ v, p.speed = some v → ltJS v (.num 0) = true →
      validateLocationPointDetailed p =
        { isValid := false,
          error := some { code := .negativeSpeed, value := .jnum v,
                          field := "speed" } }) ∧
    (isValidLatitude p.latitude = true → isValidLongitude p.longitude = true →
      ltJS p.accuracy (.num 0) = false →
      (∀ v, p.speed = some v → ltJS v (.num 0) = false) →
      ∀ v, p.heading = some v → (ltJS v (.num 0) || ltJS (.num 360) v) = true →
      validateLocationPointDetailed p =
        { isValid := false,
          error := some { code := .invalidHeading, value := .jnum v,
                          field := "heading" } }) ∧
    (isValidLatitude p.latitude = true → isValidLongitude p.longitude = true →
      ltJS p.accuracy (.num 0) = false →
      (∀ v, p.speed = some v → ltJS v (.num 0) = false) →
      (∀ v, p.heading = some v → (ltJS v (.num 0) || ltJS (.num 360) v) = false) →
      validateLocationPointDetailed p = { isValid := true, error := none }) := by
  refine ⟨?_, ?_, ?_, ?_, ?_, ?_⟩
  · intro h
    simp [validateLocationPointDetailed, h]
  · intro h1 h2
    simp [validateLocationPointDetailed, h1, h2]
  · intro h1 h2 h3
    simp [validateLocationPointDetailed, h1, h2, h3]
  · intro h1 h2 h3 v hv h4
    simp [validateLocationPointDetailed, h1, h2, h3, hv, h4]
  · intro h1 h2 h3 h4 v hv h5
    cases hs : p.speed with
    | none => simp [validateLocationPointDetailed, h1, h2, h3, hs, hv, h5]
    | some w =>
      have := h4 w hs
      simp [validateLocationPointDetailed, h1, h2, h3, hs, this, hv, h5]
  · intro h1 h2 h3 h4 h5
    cases hs : p.speed with
    | none =>
      cases hh : p.heading with
      | none => simp [validateLocationPointDetailed, h1, h2, h3, hs, hh]
      | some w =>
        have := h5 w hh
        simp [validateLocationPointDetailed, h1, h2, h3, hs, hh, this]
    | some w =>
      have hw := h4 w hs
      cases hh : p.heading with
      | none => simp [validateLocationPointDetailed, h1, h2, h3, hs, hw, hh]
      | some u =>
        have hu := h5 u hh
        simp [validateLocationPointDetailed, h1, h2, h3, hs, hw, hh, hu]

/-- Witness for C9: the theorem at a sample whose longitude and speed are
both invalid reports the longitude error (the earlier field in the fixed
order), and at a fully valid sample reports success. -/
theorem validateLocationPointDetailed_order_witness :
    validateLocationPointDetailed
        { samplePoint with longitude := .num 200, speed := some (.num (-3)) } =
      { isValid := false,
        error := some { code := .longitudeOutOfRange, value := .jnum (.num 200),
                        field := "longitude" } } ∧
    validateLocationPointDetailed samplePoint = { isValid := true, error := none } :=
  ⟨(validateLocationPointDetailed_order
      { samplePoint with longitude := .num 200, speed := some (.num (-3)) }).2.1
      (by decide) (by decide),
   (validateLocationPointDetailed_order samplePoint).2.2.2.2.2
      (by decide) (by decide) (by decide)
      (fun v hv => by
        cases hv
        decide)
      (fun v hv => by
        cases hv
        decide)⟩

/-- C10: with latitude and longitude in range (and a non-negative-looking
accuracy for the untouched field), the sample validators accept NaN in the
accuracy, speed and heading fields, while NaN latitude or longitude is
rejected: the JavaScript comparisons in those checks are all false on NaN. -/
theorem validateLocationPoint_nan_fields (p : LocationPoint)
    (hlat : isValidLatitude p.latitude = true)
    (hlon : isValidLongitude p.longitude = true)
    (hacc : ltJS p.accuracy (.num 0) = false) :
    (validateLocationPointDetailed
        { p with accuracy := .nan, speed := none, heading := none }).isValid = true ∧
    validateLocationPoint
        { p with accuracy := .nan, speed := none, heading := none } = true ∧
    (validateLocationPointDetailed
        { p with speed := some .nan, heading := none }).isValid = true ∧
    (validateLocationPointDetailed
        { p with speed := none, heading := some .nan }).isValid = true ∧
    (validateLocationPointDetailed { p with latitude := .nan }).isValid = false ∧
    (validateLocationPointDetailed { p with longitude := .nan }).isValid = false := by
  refine ⟨?_, ?_, ?_, ?_, ?_, ?_⟩ <;>
    simp [validateLocationPoint, validateLocationPointDetailed, hlat, hlon, hacc,
      ltJS_nan_left, ltJS_nan_right, isValidLatitude_nan, isValidLongitude_nan]

/-- Witness for C10: the theorem applied at the concrete valid sample. -/
theorem validateLocationPoint_nan_fields_witness :
    (validateLocationPointDetailed
        { samplePoint with accuracy := .nan, speed := none, heading := none }).isValid
      = true :=
  (validateLocationPoint_nan_fields samplePoint (by decide) (by decide) (by decide)).1

/-- C8: `calculateSpeed` rejects non-finite inputs with the invalid-number
code, negative distances with the negative-value code and non-positive
times with the non-positive code; on every remaining input it returns
`distance / seconds * 3.6` rounded to 6 decimal digits, and in particular
`calculateSpeed 1000 600 = 6` exactly. -/
theorem calculateSpeed_spec :
    (∀ d t : JSNum, (isFiniteJS d = false ∨ isFiniteJS t = false) →
      speedErrCode (calculateSpeed d t) = some .invalidValue) ∧
    (∀ dq tq : ℚ, dq < 0 →
      speedErrCode (calculateSpeed (.num dq) (.num tq)) = some .negativeValue) ∧
    (∀ dq tq : ℚ, 0 ≤ dq → tq ≤ 0 →
      speedErrCode (calculateSpeed (.num dq) (.num tq)) = some .zeroOrNegativeValue) ∧
    (∀ dq tq : ℚ, 0 ≤ dq → 0 < tq →
      calculateSpeed (.num dq) (.num tq) = .ok (round6 (dq / tq * (18 / 5)))) ∧
    calculateSpeed (.num 1000) (.num 600) = .ok 6 := by
  refine ⟨?_, ?_, ?_, ?_, ?_⟩
  · intro d t h
    rcases h with h | h <;> cases d <;> cases t <;>
      simp_all [calculateSpeed, isFiniteJS, isNaNJS, speedErrCode]
  · intro dq tq h
    simp [calculateSpeed, isFiniteJS, isNaNJS, ltJS, speedErrCode, h]
  · intro dq tq h1 h2
    simp [calculateSpeed, isFiniteJS, isNaNJS, ltJS, leJS, speedErrCode,
      not_lt.mpr h1, h2]
  · intro dq tq h1 h2
    have hlt : ¬ dq < 0 := not_lt.mpr h1
    have hle : ¬ tq ≤ 0 := not_le.mpr h2
    simp only [calculateSpeed, isFiniteJS, isNaNJS, ltJS, leJS, Bool.not_true,
      Bool.false_or, decide_eq_true_eq, if_neg hlt, if_neg hle, JSNum.toQ,
      Bool.or_self, Bool.false_eq_true, if_false, round6]
    congr 2
    ring_nf
  · simp only [calculateSpeed, isFiniteJS, isNaNJS, ltJS, leJS, JSNum.toQ]
    norm_num [jsRound]

/-- Witness for C8: the theorem applied at concrete inputs hitting each
error branch and the exact concrete quotient. -/
theorem calculateSpeed_spec_witness :
    speedErrCode (calculateSpeed .nan (.num 1)) = some .invalidValue ∧
    speedErrCode (calculateSpeed (.num (-1)) (.num 1)) = some .negativeValue ∧
    speedErrCode (calculateSpeed (.num 1) (.num 0)) = some .zeroOrNegativeValue ∧
    calculateSpeed (.num 8) (.num 2) = .ok (round6 (8 / 2 * (18 / 5))) :=
  ⟨calculateSpeed_spec.1 .nan (.num 1) (Or.inl rfl),
   calculateSpeed_spec.2.1 (-1) 1 (by norm_num),
   calculateSpeed_spec.2.2.1 1 0 (by norm_num) (by norm_num),
   calculateSpeed_spec.2.2.2.1 8 2 (by norm_num) (by norm_num)⟩

/-- Model of `Number.prototype.toString` restricted to the values this
development evaluates it at: exact on integral numbers and on the three
non-finite values. -/
def jsIntStr : JSNum → String
  | .num q => toString q.num
  | .nan => "NaN"
  | .inf => "Infinity"
  | .negInf => "-Infinity"

/-- The single-point route used to exhibit the CSV defect: one sample with
null speed and null heading. -/
def csvBugRoute : Route :=
  { id := "r1", name := "A",
    locationPoints :=
      [{ latitude := .num 35, longitude := .num 139, timestamp := 0,
         accuracy := .num 5, speed := none, heading := none }],
    startTime := 0, endTime := 0, pointCount := 1 }

/-- C4: evaluated at one route with one point, `makeCSVData` emits a blank
line between the header and the first data row, because the header string
already ends in a newline and the rows are then joined with newlines; the
row itself does render null speed and heading as consecutive empty fields,
and the zero-route output is exactly the header line plus newline.  The
date column is rendered here by the decimal epoch function passed for the
`toISOString` parameter; the blank line does not depend on it. -/
theorem makeCSVData_blank_line_bug :
    makeCSVData jsIntStr (fun n => toString n) [csvBugRoute] =
      "Route,Latitude,Longitude,Timestamp,Accuracy,Speed,Heading\n\nA,35,139,0,5,,\n" ∧
    makeCSVData jsIntStr (fun n => toString n) [] =
      "Route,Latitude,Longitude,Timestamp,Accuracy,Speed,Heading\n" := by
  constructor <;> rfl

/-! ### Lemmas about the grouping fold and about list minima and maxima -/

/-- Membership in the title-accumulating fold. -/
theorem mem_foldl_addTitle (rows : List FootprintRow) (acc : List String) (t : String) :
    t ∈ rows.foldl addTitle acc ↔ t ∈ acc ∨ ∃ r ∈ rows, r.title = t := by
  induction rows generalizing acc with
  | nil => simp
  | cons r rs ih =>
    rw [List.foldl_cons, ih]
    by_cases h : acc.contains r.title
    · have hmem : r.title ∈ acc := List.elem_iff.mp h
      simp only [addTitle, if_pos h]
      constructor
      · rintro (ht | ⟨r', hr', rfl⟩)
        · exact Or.inl ht
        · exact Or.inr ⟨r', List.mem_cons_of_mem r hr', rfl⟩
      · rintro (ht | ⟨r', hr', rfl⟩)
        · exact Or.inl ht
        · rcases List.mem_cons.mp hr' with rfl | hr2
          · exact Or.inl hmem
          · exact Or.inr ⟨r', hr2, rfl⟩
    · simp only [addTitle, if_neg h]
      constructor
      · rintro (hta | ⟨r', hr', rfl⟩)
        · rcases List.mem_append.mp hta with ht | ht
          · exact Or.inl ht
          · exact Or.inr ⟨r, List.mem_cons_self r rs, (List.mem_singleton.mp ht).symm⟩
        · exact Or.inr ⟨r', List.mem_cons_of_mem r hr', rfl⟩
      · rintro (ht | ⟨r', hr', rfl⟩)
        · exact Or.inl (List.mem_append.mpr (Or.inl ht))
        · rcases List.mem_cons.mp hr' with rfl | hr2
          · exact Or.inl (List.mem_append.mpr (Or.inr (List.mem_singleton.mpr rfl)))
          · exact Or.inr ⟨r', hr2, rfl⟩

/-- The title-accumulating fold preserves freedom from duplicates. -/
theorem nodup_foldl_addTitle (rows : List FootprintRow) (acc : List String)
    (h : acc.Nodup) : (rows.foldl addTitle acc).Nodup := by
  induction rows generalizing acc with
  | nil => exact h
  | cons r rs ih =>
    rw [List.foldl_cons]
    refine ih _ ?_
    by_cases hc : acc.contains r.title
    · simp only [addTitle, if_pos hc]
      exact h
    · have hnot : r.title ∉ acc := fun hmem => hc (List.elem_iff.mpr hmem)
      simp only [addTitle, if_neg hc]
      exact List.nodup_append.mpr
        ⟨h, List.nodup_singleton _, by simpa [List.disjoint_singleton] using hnot⟩

/-- A left fold by `min` is bounded by its initial value. -/
theorem foldl_min_le_init (xs : List Int) (x : Int) : xs.foldl min x ≤ x := by
  induction xs generalizing x with
  | nil => exact le_refl x
  | cons y ys ih => exact le_trans (ih (min x y)) (min_le_left x y)

/-- A left fold by `min` is bounded by every list element. -/
theorem foldl_min_le_mem (xs : List Int) :
    ∀ x y : Int, y ∈ xs → xs.foldl min x ≤ y := by
  induction xs with
  | nil =>
    intro x y h
    cases h
  | cons z zs ih =>
    intro x y h
    rcases List.mem_cons.mp h with rfl | hy
    · exact le_trans (foldl_min_le_init zs (min x y)) (min_le_right x y)
    · exact ih (min x z) y hy

/-- A left fold by `min` is the initial value or a list element. -/
theorem foldl_min_mem (xs : List Int) (x : Int) :
    xs.foldl min x = x ∨ xs.foldl min x ∈ xs := by
  induction xs generalizing x with
  | nil => exact Or.inl rfl
  | cons y ys ih =>
    rcases ih (min x y) with h | h
    · rcases min_choice x y with hm | hm
      · exact Or.inl (by rw [List.foldl_cons, h, hm])
      · exact Or.inr (by rw [List.foldl_cons, h, hm]; exact List.mem_cons_self y ys)
    · exact Or.inr (List.mem_cons_of_mem y h)

/-- A left fold by `max` dominates its initial value. -/
theorem foldl_max_init_le (xs : List Int) (x : Int) : x ≤ xs.foldl max x := by
  induction xs generalizing x with
  | nil => exact le_refl x
  | cons y ys ih => exact le_trans (le_max_left x y) (ih (max x y))

/-- A left fold by `max` dominates every list element. -/
theorem foldl_max_mem_le (xs : List Int) :
    ∀ x y : Int, y ∈ xs → y ≤ xs.foldl max x := by
  induction xs with
  | nil =>
    intro x y h
    cases h
  | cons z zs ih =>
    intro x y h
    rcases List.mem_cons.mp h with rfl | hy
    · exact le_trans (le_max_right x y) (foldl_max_init_le zs (max x y))
    · exact ih (max x z) y hy

/-- A left fold by `max` is the initial value or a list element. -/
theorem foldl_max_mem (xs : List Int) (x : Int) :
    xs.foldl max x = x ∨ xs.foldl max x ∈ xs := by
  induction xs generalizing x with
  | nil => exact Or.inl rfl
  | cons y ys ih =>
    rcases ih (max x y) with h | h
    · rcases max_choice x y with hm | hm
      · exact Or.inl (by rw [List.foldl_cons, h, hm])
      · exact Or.inr (by rw [List.foldl_cons, h, hm]; exact List.mem_cons_self y ys)
    · exact Or.inr (List.mem_cons_of_mem y h)

/-- C7: for a non-empty row set, route materialization produces exactly one
route per distinct title (the route names list the distinct titles without
duplicates, and a title occurs exactly when some row carries it), and each
route has `pointCount` the size of its title group, `startTime` the minimum
group timestamp and `endTime` the maximum group timestamp; the empty row
set yields the empty route list. -/
theorem fetchFootprints_grouping (rows : List FootprintRow) (hne : rows ≠ []) :
    (fetchFootprints rows).map (fun route => route.name) = distinctTitles rows ∧
    (distinctTitles rows).Nodup ∧
    (∀ t, t ∈ distinctTitles rows ↔ ∃ r ∈ rows, r.title = t) ∧
    (∀ route ∈ fetchFootprints rows,
      rows.filter (fun r => r.title == route.name) ≠ [] ∧
      route.pointCount = (rows.filter (fun r => r.title == route.name)).length ∧
      (∀ r ∈ rows.filter (fun r => r.title == route.name),
        route.startTime ≤ r.timestamp ∧ r.timestamp ≤ route.endTime) ∧
      (∃ r ∈ rows.filter (fun r => r.title == route.name),
        r.timestamp = route.startTime) ∧
      (∃ r ∈ rows.filter (fun r => r.title == route.name),
        r.timestamp = route.endTime)) ∧
    fetchFootprints [] = [] := by
  have hlen : ¬ rows.length = 0 := by simpa [List.length_eq_zero] using hne
  have hfetch : fetchFootprints rows = (distinctTitles rows).map (mkRouteForTitle rows) := by
    simp [fetchFootprints, groupFootprintsByTitle, hlen]
  refine ⟨?_, ?_, ?_, ?_, rfl⟩
  · rw [hfetch, List.map_map]
    have hcomp : ((fun route => route.name) ∘ mkRouteForTitle rows) = fun t => t := by
      funext t
      rfl
    rw [hcomp]
    exact List.map_id _
  · exact nodup_foldl_addTitle rows [] List.nodup_nil
  · intro t
    rw [distinctTitles, mem_foldl_addTitle]
    simp
  · intro route hroute
    rw [hfetch] at hroute
    obtain ⟨t, ht, rfl⟩ := List.mem_map.mp hroute
    have hname : (mkRouteForTitle rows t).name = t := rfl
    simp only [hname]
    have hex : ∃ r ∈ rows, r.title = t := by
      have hmem := (mem_foldl_addTitle rows [] t).mp ht
      simpa using hmem
    obtain ⟨r0, hr0, hr0t⟩ := hex
    have hr0g : r0 ∈ rows.filter (fun r => r.title == t) :=
      List.mem_filter.mpr ⟨hr0, by simp [hr0t]⟩
    have hgne : rows.filter (fun r => r.title == t) ≠ [] := List.ne_nil_of_mem hr0g
    have hts : (mkRouteForTitle rows t).startTime =
        listMinD ((rows.filter (fun r => r.title == t)).map (fun r => r.timestamp)) := by
      simp only [mkRouteForTitle, List.map_map]
      rfl
    have hte : (mkRouteForTitle rows t).endTime =
        listMaxD ((rows.filter (fun r => r.title == t)).map (fun r => r.timestamp)) := by
      simp only [mkRouteForTitle, List.map_map]
      rfl
    obtain ⟨c, cs, hcons⟩ := List.exists_cons_of_ne_nil hgne
    refine ⟨hgne, by simp [mkRouteForTitle], ?_, ?_, ?_⟩
    · intro r hr
      rw [hts, hte, hcons] at *
      rcases List.mem_cons.mp hr with rfl | hr2
      · exact ⟨foldl_min_le_init _ _, foldl_max_init_le _ _⟩
      · exact ⟨foldl_min_le_mem _ _ _ (List.mem_map_of_mem _ hr2),
          foldl_max_mem_le _ _ _ (List.mem_map_of_mem _ hr2)⟩
    · rw [hts, hcons]
      rcases foldl_min_mem ((cs.map (fun r => r.timestamp))) c.timestamp with hm | hm
      · exact ⟨c, List.mem_cons_self c cs, by simp [listMinD, hm]⟩
      · obtain ⟨r, hr, hrts⟩ := List.mem_map.mp hm
        exact ⟨r, List.mem_cons_of_mem c hr, by simp [listMinD, hrts]⟩
    · rw [hte, hcons]
      rcases foldl_max_mem ((cs.map (fun r => r.timestamp))) c.timestamp with hm | hm
      · exact ⟨c, List.mem_cons_self c cs, by simp [listMaxD, hm]⟩
      · obtain ⟨r, hr, hrts⟩ := List.mem_map.mp hm
        exact ⟨r, List.mem_cons_of_mem c hr, by simp [listMaxD, hrts]⟩

/-- Witness for C7: the theorem at a two-row, two-title concrete input. -/
theorem fetchFootprints_grouping_witness :
    (fetchFootprints
        [{ id := 1, title := "walk", latitude := .num 35, longitude := .num 139,
           accuracy := .num 5, speed := none, direction := none, timestamp := 10 },
         { id := 2, title := "walk", latitude := .num 36, longitude := .num 140,
           accuracy := .num 5, speed := none, direction := none, timestamp := 4 }]).map
      (fun route => route.name) = ["walk"] :=
  (fetchFootprints_grouping
    [{ id := 1, title := "walk", latitude := .num 35, longitude := .num 139,
       accuracy := .num 5, speed := none, direction := none, timestamp := 10 },
     { id := 2, title := "walk", latitude := .num 36, longitude := .num 140,
       accuracy := .num 5, speed := none, direction := none, timestamp := 4 }]
    (by decide)).1

/-! ### Lemmas about the route map model -/

/-- Setting a key absent from the map appends the new entry. -/
theorem mapSet_of_not_key (m : List (String × Route)) (k : String) (v : Route)
    (h : ∀ kv ∈ m, kv.1 ≠ k) : mapSet m k v = m ++ [(k, v)] := by
  induction m with
  | nil => rfl
  | cons a rest ih =>
    have ha : a.1 ≠ k := h a (List.mem_cons_self a rest)
    simp only [mapSet, if_neg ha, List.cons_append]
    rw [ih fun kv hkv => h kv (List.mem_cons_of_mem a hkv)]

/-- Membership after the fold of deletions performed by
`deleteRouteByTitle`: an entry survives exactly when it was present and its
key is none of the deleted ids. -/
theorem mem_foldl_mapDelete (rs : List Route) (m : List (String × Route))
    (kv : String × Route) :
    kv ∈ rs.foldl (fun m route => mapDelete route.id m) m ↔
      kv ∈ m ∧ ∀ r ∈ rs, kv.1 ≠ r.id := by
  induction rs generalizing m with
  | nil => simp
  | cons r rest ih =>
    rw [List.foldl_cons, ih]
    simp only [mapDelete, List.mem_filter, decide_eq_true_eq]
    constructor
    · rintro ⟨⟨hm, hk⟩, hrest⟩
      refine ⟨hm, ?_⟩
      intro d hd
      rcases List.mem_cons.mp hd with rfl | hd2
      · exact hk
      · exact hrest d hd2
    · rintro ⟨hm, hall⟩
      exact ⟨⟨hm, hall r (List.mem_cons_self r rest)⟩,
        fun d hd => hall d (List.mem_cons_of_mem r hd)⟩

/-- The fold of deletions performed by `deleteRouteByTitle` yields a
sublist of the starting map. -/
theorem foldl_mapDelete_sublist (rs : List Route) (m : List (String × Route)) :
    List.Sublist (rs.foldl (fun m route => mapDelete route.id m) m) m := by
  induction rs generalizing m with
  | nil => exact List.Sublist.refl m
  | cons r rest ih =>
    rw [List.foldl_cons]
    exact List.Sublist.trans (ih (mapDelete r.id m)) (List.filter_sublist m)

/-- Behaviour of `deleteRouteByTitle` when no route carries the title. -/
theorem deleteRouteByTitle_of_zero (title : String) (s : RouteState)
    (h : (s.routes.filter (fun route => route.name == title)).length = 0) :
    deleteRouteByTitle title s = (false, s) := by
  simp [deleteRouteByTitle, h]

/-- Behaviour of `deleteRouteByTitle` when some route carries the title. -/
theorem deleteRouteByTitle_of_pos (title : String) (s : RouteState)
    (h : ¬ (s.routes.filter (fun route => route.name == title)).length = 0) :
    deleteRouteByTitle title s =
      (true,
        { routes := s.routes.filter (fun route => route.name != title),
          routeMap := (s.routes.filter (fun route => route.name == title)).foldl
            (fun m route => mapDelete route.id m) s.routeMap }) := by
  simp [deleteRouteByTitle, h]

/-! ### Route fixtures for the catalog claims -/

/-- A route with id r1 and name A. -/
def routeA1 : Route :=
  { id := "r1", name := "A", locationPoints := [], startTime := 10,
    endTime := 20, pointCount := 0 }

/-- A different route with the same id r1 and name B. -/
def routeA2 : Route :=
  { id := "r1", name := "B", locationPoints := [], startTime := 30,
    endTime := 40, pointCount := 0 }

/-- C2 counterexample: adding two routes with the same id leaves both in
the ordered sequence (no replacement happens there) while the map keeps one
entry, so the claimed id-to-entry one-to-one consistency is false at this
explicit input. -/
theorem addRoute_duplicate_id_counterexample :
    (addRoute routeA2 (addRoute routeA1 initialRouteState)).routes.length = 2 ∧
    routeA1 ∈ (addRoute routeA2 (addRoute routeA1 initialRouteState)).routes ∧
    routeA2 ∈ (addRoute routeA2 (addRoute routeA1 initialRouteState)).routes ∧
    (addRoute routeA2 (addRoute routeA1 initialRouteState)).routeMap.length = 1 ∧
    ¬ routeStoreConsistent (addRoute routeA2 (addRoute routeA1 initialRouteState)) := by
  refine ⟨by decide, by decide, by decide, by decide, ?_⟩
  decide

/-- C2 amended: `addRoute` inserts-or-replaces in the mapping but appends to
the sequence (re-sorted by start time); the mapping and the sequence stay
mutually consistent under `addRoute` whenever the added id is fresh, and
under `deleteRouteByTitle` always — with a duplicated id the sequence keeps
two entries while the mapping keeps one (see the counterexample). -/
theorem routeStore_ops_consistency (s : RouteState) (r : Route) (title : String) :
    (addRoute r s).routeMap = mapSet s.routeMap r.id r ∧
    List.Perm (addRoute r s).routes (s.routes ++ [r]) ∧
    (routeStoreConsistent s → r.id ∉ s.routes.map Route.id →
      routeStoreConsistent (addRoute r s)) ∧
    (routeStoreConsistent s → routeStoreConsistent (deleteRouteByTitle title s).2) := by
  have hperm : List.Perm (addRoute r s).routes (s.routes ++ [r]) :=
    List.perm_insertionSort _ _
  refine ⟨rfl, hperm, ?_, ?_⟩
  · rintro ⟨h1, h2, h3, h4⟩ hfresh
    have hnotkey : ∀ kv ∈ s.routeMap, kv.1 ≠ r.id := by
      intro kv hkv heq
      obtain ⟨hin, hid⟩ := h2 kv hkv
      exact hfresh (heq ▸ hid ▸ List.mem_map_of_mem Route.id hin)
    have hmap : (addRoute r s).routeMap = s.routeMap ++ [(r.id, r)] :=
      mapSet_of_not_key s.routeMap r.id r hnotkey
    refine ⟨?_, ?_, ?_, ?_⟩
    · intro x hx
      rw [hmap]
      rcases List.mem_append.mp (hperm.mem_iff.mp hx) with hx2 | hx2
      · exact List.mem_append.mpr (Or.inl (h1 x hx2))
      · rw [List.mem_singleton.mp hx2]
        exact List.mem_append.mpr (Or.inr (List.mem_singleton.mpr rfl))
    · intro kv hkv
      rw [hmap] at hkv
      rcases List.mem_append.mp hkv with hkv2 | hkv2
      · obtain ⟨hin, hid⟩ := h2 kv hkv2
        exact ⟨hperm.mem_iff.mpr (List.mem_append.mpr (Or.inl hin)), hid⟩
      · rw [List.mem_singleton.mp hkv2]
        exact ⟨hperm.mem_iff.mpr (List.mem_append.mpr (Or.inr (List.mem_singleton.mpr rfl))),
          rfl⟩
    · have hids := (hperm.map Route.id).symm
      refine hids.nodup ?_
      rw [List.map_append]
      refine List.nodup_append.mpr ⟨h3, by simp, ?_⟩
      simpa [List.disjoint_singleton] using hfresh
    · rw [hmap, List.map_append]
      refine List.nodup_append.mpr ⟨h4, by simp, ?_⟩
      simp only [List.map_cons, List.map_nil, List.disjoint_singleton]
      intro hmem
      obtain ⟨kv, hkv, hfst⟩ := List.mem_map.mp hmem
      exact hnotkey kv hkv hfst
  · rintro ⟨h1, h2, h3, h4⟩
    by_cases hcase : (s.routes.filter (fun route => route.name == title)).length = 0
    · rw [deleteRouteByTitle_of_zero title s hcase]
      exact ⟨h1, h2, h3, h4⟩
    · rw [deleteRouteByTitle_of_pos title s hcase]
      refine ⟨?_, ?_, ?_, ?_⟩
      · intro x hx
        obtain ⟨hx1, hx2⟩ := List.mem_filter.mp hx
        have hxname : x.name ≠ title := by simpa using hx2
        refine (mem_foldl_mapDelete _ _ _).mpr ⟨h1 x hx1, ?_⟩
        intro d hd heq
        obtain ⟨hd1, hd2⟩ := List.mem_filter.mp hd
        have hdname : d.name = title := by simpa using hd2
        have hxd : x = d := List.inj_on_of_nodup_map h3 hx1 hd1 heq
        exact hxname (hxd ▸ hdname)
      · intro kv hkv
        obtain ⟨hkv1, hkv2⟩ := (mem_foldl_mapDelete _ _ _).mp hkv
        obtain ⟨hin, hid⟩ := h2 kv hkv1
        have hnt : kv.2.name ≠ title := by
          intro hname
          exact hkv2 kv.2 (List.mem_filter.mpr ⟨hin, by simp [hname]⟩) hid
        exact ⟨List.mem_filter.mpr ⟨hin, by simpa using hnt⟩, hid⟩
      · exact h3.sublist ((List.filter_sublist s.routes).map Route.id)
      · exact h4.sublist ((foldl_mapDelete_sublist _ s.routeMap).map Prod.fst)

/-- Witness for C2: consistency after adding a fresh-id route to the empty
catalog, and after then deleting by title. -/
theorem routeStore_ops_consistency_witness :
    routeStoreConsistent (addRoute routeA1 initialRouteState) ∧
    routeStoreConsistent (deleteRouteByTitle "A" (addRoute routeA1 initialRouteState)).2 := by
  have h1 : routeStoreConsistent (addRoute routeA1 initialRouteState) :=
    (routeStore_ops_consistency initialRouteState routeA1 "A").2.2.1
      (by decide) (by decide)
  exact ⟨h1, (routeStore_ops_consistency (addRoute routeA1 initialRouteState) routeA1 "A").2.2.2 h1⟩

end FootStepMeter
